import Mathlib

/-!
Shallow embedding of the koboldcpp-mcp server core, checked against its
natural-language specification.

Source files embedded (paths relative to the repository root):
* `src/koboldcpp_mcp_server/kobold_client.py` — the resilient backend client
  (`_make_request` retry loop, `batch_generate` fan-out).
* `src/koboldcpp_mcp_server/protocol/mcp_handler.py` — the protocol router
  (session state machine, dispatch, error responses).
* `src/koboldcpp_mcp_server/protocol/message_types.py` — pydantic message
  models (`MCPRequest`, `MCPResponse`, `GenerationResult`, `BatchResult`, ...).
* `src/koboldcpp_mcp_server/tools/text_generation.py` — the capability layer
  (`generate_text`, `test_prompt`, `batch_generate`, `_sanitize_prompt`).

Modelling conventions:
* Python strings that are inspected character by character (prompts) are
  `List Char`; strings only carried around (texts, messages) are `String`.
* Python floats (times, temperatures, tokens-per-second) are `ℚ`: the claims
  under check concern control flow and selection order, not rounding.
* The external backend and the wall clock are oracles passed as function
  arguments; an `Except String` result models a raised / propagated Python
  exception carrying `str(e)`.
-/

/-! ## Python string primitives

`str.replace(old, new)` scans left to right, replacing non-overlapping
occurrences and never rescanning the replacement text.  We model the scan
over `List Char` with Boolean prefix / substring tests of our own so that
everything evaluates by `decide` / `rfl`. -/

/-- Boolean prefix test on character lists: `listPrefixB p l` is true iff
`p` is an initial segment of `l`. -/
def listPrefixB : List Char → List Char → Bool
  | [], _ => true
  | _ :: _, [] => false
  | a :: as, b :: bs => a == b && listPrefixB as bs

/-- Boolean substring test on character lists: `listInfixB p l` is true iff
`p` occurs contiguously inside `l`. -/
def listInfixB (pat : List Char) : List Char → Bool
  | [] => pat.isEmpty
  | c :: rest => listPrefixB pat (c :: rest) || listInfixB pat rest

/-- Python `str.replace(pat, rep)` on character lists: a single left-to-right
pass replacing non-overlapping occurrences of `pat` by `rep`; the replacement
text is never rescanned.  (The source only uses `rep = ""`.) -/
def pyReplace (pat rep : List Char) : List Char → List Char
  | [] => []
  | c :: cs =>
    if h : pat ≠ [] ∧ listPrefixB pat (c :: cs) = true then
      rep ++ pyReplace pat rep (List.drop pat.length (c :: cs))
    else
      c :: pyReplace pat rep cs
termination_by l => l.length
decreasing_by
  · have hp : 0 < pat.length := List.length_pos.mpr h.1
    simp only [List.length_drop, List.length_cons]
    omega
  · simp [List.length_cons]

namespace TextTools

/-- Security settings consumed by the capability layer
(`config/settings.py`, class `SecurityConfig`; only the fields the
embedded code reads). -/
structure SecurityConfig where
  data_sanitization : Bool
  max_prompt_length : Nat
  max_response_length : Nat

/-- Defaults of `SecurityConfig` in `config/settings.py`. -/
def defaultSecurity : SecurityConfig :=
  { data_sanitization := true, max_prompt_length := 8192, max_response_length := 4096 }

/-- `TextGenerationTools._sanitize_prompt` (text_generation.py 456-465):
strip the two injection delimiter tokens by `str.replace`, then hard-truncate
to `max_prompt_length`. -/
def sanitize_prompt (max_prompt_length : Nat) (prompt : List Char) : List Char :=
  let sanitized := pyReplace ("<|endoftext|>".data) [] (pyReplace ("</s>".data) [] prompt)
  if sanitized.length > max_prompt_length then sanitized.take max_prompt_length
  else sanitized

end TextTools

/-! ## Backend client (`kobold_client.py`) -/

namespace KoboldClient

/-- `GenerationResult` (message_types.py 206-212).  `generation_time` and
`tokens_per_second` are Python floats, modelled as `ℚ`. -/
structure GenerationResult where
  text : String
  tokens_generated : Nat
  generation_time : ℚ
  tokens_per_second : ℚ
  finish_reason : String
deriving Repr, DecidableEq

/-- `BatchResult` (message_types.py 222-227). -/
structure BatchResult where
  results : List GenerationResult
  total_time : ℚ
  successful : Nat
  failed : Nat
deriving Repr, DecidableEq

/-- What the environment does on one HTTP attempt inside
`KoboldCppClient._make_request` (kobold_client.py 86-110): the request either
yields a 200 response (whose parsed JSON body we abstract as a `String`),
yields a non-200 status with a body text, or itself raises an
`aiohttp.ClientError` / `asyncio.TimeoutError` carrying `str(e)`. -/
inductive AttemptOutcome where
  | success (result : String)
  | status (code : Nat) (body : String)
  | exn (msg : String)

/-- The statuses the `elif response.status in (502, 503, 504)` branch of
`_make_request` treats as retryable. -/
def retryableStatus (c : Nat) : Bool :=
  c == 502 || c == 503 || c == 504

/-- The text of the `aiohttp.ClientError` raised for a non-200 response:
`f"HTTP \x7bresponse.status\x7d: \x7berror_text\x7d"` (kobold_client.py 99-101). -/
def httpErrorText (c : Nat) (body : String) : String :=
  "HTTP " ++ toString c ++ ": " ++ body

/-- An attempt outcome the spec calls a retryable failure: HTTP 502/503/504,
or a connection/timeout exception. -/
def RetryableFailure : AttemptOutcome → Prop
  | .success _ => False
  | .status c _ => retryableStatus c = true
  | .exn _ => True

instance : DecidablePred RetryableFailure := by
  intro o
  cases o <;> simp [RetryableFailure] <;> infer_instance

/-- The terminal error text `_make_request` propagates when the last attempt
fails: the `ClientError` text for a non-200 status, or the original
exception text. -/
def lastErrorText : AttemptOutcome → String
  | .success _ => ""
  | .status c body => httpErrorText c body
  | .exn msg => msg

/-- The retry loop of `KoboldCppClient._make_request` (kobold_client.py
86-110), starting at a given attempt index, with the per-attempt outcomes
given by `oracle`.  Control flow of one iteration of
`for attempt in range(max_retries + 1)`:

* status 200: return the parsed body.
* status 502/503/504 with `attempt < max_retries`: sleep with exponential
  backoff and continue (the `continue` inside the `try`).
* any other non-200 status — and a retryable status on the last attempt —
  raises `ClientError(f"HTTP ...")` *inside* the `try`, so it is caught by
  `except (aiohttp.ClientError, asyncio.TimeoutError)`, which continues when
  `attempt < max_retries` and re-raises otherwise.
* a connection/timeout exception is likewise caught: continue when
  `attempt < max_retries`, re-raise otherwise.

Every iteration returns, continues, or raises, so the loop never falls
through: the final `raise aiohttp.ClientError(f"Failed after ... attempts")`
(line 112) is unreachable for any `max_retries ≥ 0`; accordingly it has no
image in this model.  Sleeping is invisible here. -/
def makeRequestFrom (oracle : Nat → AttemptOutcome) (max_retries : Nat)
    (attempt : Nat) : Except String String :=
  match oracle attempt with
  | .success r => .ok r
  | .status c body =>
    if _h : retryableStatus c = true ∧ attempt < max_retries then
      makeRequestFrom oracle max_retries (attempt + 1)
    else if _h2 : attempt < max_retries then
      makeRequestFrom oracle max_retries (attempt + 1)
    else
      .error (httpErrorText c body)
  | .exn msg =>
    if _h3 : attempt < max_retries then
      makeRequestFrom oracle max_retries (attempt + 1)
    else
      .error msg
termination_by max_retries + 1 - attempt

/-- `KoboldCppClient._make_request`: run the retry loop from attempt 0. -/
def make_request (oracle : Nat → AttemptOutcome) (max_retries : Nat) : Except String String :=
  makeRequestFrom oracle max_retries 0

/-- The placeholder appended for a failed prompt in `batch_generate`
(kobold_client.py 293-299). -/
def failedGenerationResult : GenerationResult :=
  { text := "", tokens_generated := 0, generation_time := 0,
    tokens_per_second := 0, finish_reason := "error" }

/-- The per-prompt outcomes of `batch_generate`'s fan-out
(kobold_client.py 270-283): `process_single` returns the
`GenerationResult` of `self.generate_text` or `None` when it raised; the
oracle `gen` maps the task index and its prompt to that outcome, and
`asyncio.gather` keeps task order, so outcome `i` lines up with prompt `i`. -/
def runBatch (gen : Nat → List Char → Option GenerationResult) :
    Nat → List (List Char) → List (Option GenerationResult)
  | _, [] => []
  | i, p :: ps => gen i p :: runBatch gen (i + 1) ps

/-- One step of the collection loop `for result in batch_results`
(kobold_client.py 286-299): a `GenerationResult` is appended and counted
successful; anything else counts failed and appends the placeholder. -/
def batchFold (acc : List GenerationResult × Nat × Nat) (r : Option GenerationResult) :
    List GenerationResult × Nat × Nat :=
  match r with
  | some res => (acc.1 ++ [res], acc.2.1 + 1, acc.2.2)
  | none => (acc.1 ++ [failedGenerationResult], acc.2.1, acc.2.2 + 1)

/-- `KoboldCppClient.batch_generate` (kobold_client.py 260-308).
`total_time` is the wall clock reading, an environment input. -/
def batch_generate (gen : Nat → List Char → Option GenerationResult)
    (total_time : ℚ) (prompts : List (List Char)) : BatchResult :=
  let batch_results := runBatch gen 0 prompts
  let acc := batch_results.foldl batchFold ([], 0, 0)
  { results := acc.1, total_time := total_time, successful := acc.2.1, failed := acc.2.2 }

end KoboldClient

/-! ## Capability layer (`tools/text_generation.py`) -/

namespace TextTools

open KoboldClient

/-- `GenerateTextParams` (message_types.py 167-178) with its field defaults;
`stop_sequence`'s `None` default is realised as `[]` by the callers
(`params.stop_sequence or []`). -/
structure GenerateTextParams where
  prompt : List Char
  max_tokens : Nat := 100
  temperature : ℚ := 7/10
  top_p : ℚ := 9/10
  top_k : Nat := 40
  typical_p : ℚ := 1
  rep_pen : ℚ := 11/10
  rep_pen_range : Nat := 320
  stop_sequence : List String := []
deriving Repr, DecidableEq

/-- The keyword arguments of `TextGenerationTools.generate_text`
(text_generation.py 238-249) with their declared defaults. -/
structure GenerateArgs where
  max_tokens : Nat := 100
  temperature : ℚ := 7/10
  top_p : ℚ := 9/10
  top_k : Nat := 40
  typical_p : ℚ := 1
  rep_pen : ℚ := 11/10
  rep_pen_range : Nat := 320
  stop_sequence : Option (List String) := none

/-- The success payload of the `generate_text` tool (text_generation.py
275-285): the generated text plus the metadata block (which carries the
client result and the parameters used). -/
structure ToolTextOutput where
  text : String
  metadata_result : GenerationResult
  parameters_used : GenerateTextParams
deriving Repr, DecidableEq

/-- The body of `TextGenerationTools.generate_text` after the validation
gate (text_generation.py 260-285): build `GenerateTextParams` (capping
`max_tokens` at `max_response_length`), call the client, shape the output.
`client_gen` is the backend oracle; `.error` is a raised exception. -/
def generate_body (client_gen : GenerateTextParams → Except String GenerationResult)
    (security : SecurityConfig) (prompt : List Char) (args : GenerateArgs) :
    Except String ToolTextOutput :=
  let params : GenerateTextParams :=
    { prompt := prompt,
      max_tokens := min args.max_tokens security.max_response_length,
      temperature := args.temperature, top_p := args.top_p, top_k := args.top_k,
      typical_p := args.typical_p, rep_pen := args.rep_pen,
      rep_pen_range := args.rep_pen_range,
      stop_sequence := args.stop_sequence.getD [] }
  (client_gen params).map fun r =>
    { text := r.text, metadata_result := r, parameters_used := params }

/-- `TextGenerationTools.generate_text` (text_generation.py 238-289):
sanitize when `data_sanitization` is enabled, reject prompts longer than
`max_prompt_length`, then run the generation body. -/
def generate_text (client_gen : GenerateTextParams → Except String GenerationResult)
    (security : SecurityConfig) (prompt : List Char) (args : GenerateArgs) :
    Except String ToolTextOutput :=
  let prompt :=
    if security.data_sanitization then sanitize_prompt security.max_prompt_length prompt
    else prompt
  if prompt.length > security.max_prompt_length then
    .error ("Prompt exceeds maximum length of " ++ toString security.max_prompt_length)
  else
    generate_body client_gen security prompt args

/-- One row of `test_prompt`'s result list (text_generation.py 367-374). -/
structure SweepEntry where
  temperature : ℚ
  top_p : ℚ
  generated_text : String
  tokens_generated : Nat
  generation_time : ℚ
  tokens_per_second : ℚ
deriving Repr, DecidableEq

/-- The `best_configuration` block of `test_prompt`'s metadata
(text_generation.py 384-388). -/
structure BestConfiguration where
  temperature : ℚ
  top_p : ℚ
  performance : ℚ
deriving Repr, DecidableEq

/-- The metadata `test_prompt` returns (text_generation.py 379-391). -/
structure TestPromptSummary where
  test_results : List SweepEntry
  best_configuration : BestConfiguration
  total_tests : Nat
deriving Repr, DecidableEq

/-- Python `x or default` for an optional list argument: `None` and the
empty list are falsy and select the default (text_generation.py 350-351). -/
def pyOrList (l : Option (List ℚ)) (d : List ℚ) : List ℚ :=
  match l with
  | none => d
  | some xs => if xs = [] then d else xs

/-- One comparison step of CPython `max(iterable, key=...)`: the running
maximum is replaced only when the new key is strictly greater, so the first
element of a tie is kept. -/
def pyMaxStep {α : Type} (key : α → ℚ) (best y : α) : α :=
  if key y > key best then y else best

/-- CPython `max(iterable, key=...)`: left fold of `pyMaxStep` over the
list; `none` models the `ValueError` on an empty iterable. -/
def pyMaxBy {α : Type} (key : α → ℚ) : List α → Option α
  | [] => none
  | x :: xs => some (xs.foldl (pyMaxStep key) x)

/-- One iteration of `test_prompt`'s inner loop (text_generation.py
358-374): build params for the combination (same prompt and `max_tokens`
every time), call the client, record the metrics.  `client_gen` is the
backend oracle; a combination that raises would abort the whole sweep
(`test_prompt` re-raises), so the sweep properties are stated for a backend
that returns on every combination, i.e. a total oracle. -/
def sweepEntry (client_gen : GenerateTextParams → GenerationResult)
    (prompt : List Char) (max_tokens : Nat) (temp tp : ℚ) : SweepEntry :=
  let params : GenerateTextParams :=
    { prompt := prompt, max_tokens := max_tokens, temperature := temp, top_p := tp }
  let r := client_gen params
  { temperature := temp, top_p := tp, generated_text := r.text,
    tokens_generated := r.tokens_generated, generation_time := r.generation_time,
    tokens_per_second := r.tokens_per_second }

/-- `TextGenerationTools.test_prompt` (text_generation.py 340-395): apply
the `or`-defaults, run the nested loops (temperature outer, top_p inner)
appending one entry per combination, then pick `max(results, key=tokens
per second)`; `max` on an empty result list raises `ValueError`. -/
def test_prompt (client_gen : GenerateTextParams → GenerationResult)
    (prompt : List Char) (temperature_range top_p_range : Option (List ℚ))
    (max_tokens : Nat) : Except String TestPromptSummary :=
  let tr := pyOrList temperature_range [3/10, 7/10, 1]
  let pr := pyOrList top_p_range [8/10, 9/10, 95/100]
  let results := tr.flatMap fun temp =>
    pr.map fun tp => sweepEntry client_gen prompt max_tokens temp tp
  match pyMaxBy (fun x => x.tokens_per_second) results with
  | none => .error "max arg is an empty sequence"
  | some best =>
    .ok { test_results := results,
          best_configuration :=
            { temperature := best.temperature, top_p := best.top_p,
              performance := best.tokens_per_second },
          total_tests := results.length }

/-- Modelled from the spec for comparison with `test_prompt`: the sweep runs
"the cross product of a temperature list and a top-p list ... temperature
outer loop, top-p inner loop" — the ordered cross product, one entry per
pair. -/
def specSweepResults (client_gen : GenerateTextParams → GenerationResult)
    (prompt : List Char) (max_tokens : Nat) (tr pr : List ℚ) : List SweepEntry :=
  (tr ×ˢ pr).map fun tp => sweepEntry client_gen prompt max_tokens tp.1 tp.2

/-- Modelled from the spec for comparison with `test_prompt`: "selects the
combination with the highest tokens-per-second ... ties are broken by
whichever combination is encountered first in iteration order" — the first
list element whose tokens-per-second is greater or equal to every other
element's. -/
def specFirstBest (l : List SweepEntry) : Option SweepEntry :=
  l.find? fun x => decide (∀ y ∈ l, y.tokens_per_second ≤ x.tokens_per_second)

/-- The formatted per-prompt rows of the `batch_generate` tool's output
(text_generation.py 430-438). -/
structure BatchRow where
  prompt_index : Nat
  generated_text : String
  tokens_generated : Nat
  generation_time : ℚ
  success : Bool
deriving Repr, DecidableEq

/-- The `batch_generate` tool's output (text_generation.py 440-450). -/
structure BatchToolOutput where
  rows : List BatchRow
  total_time : ℚ
  successful : Nat
  failed : Nat
  total_prompts : Nat
deriving Repr, DecidableEq

/-- Format one client result into a row (text_generation.py 431-438). -/
def formatRow (i : Nat) (r : GenerationResult) : BatchRow :=
  { prompt_index := i, generated_text := r.text, tokens_generated := r.tokens_generated,
    generation_time := r.generation_time, success := r.finish_reason != "error" }

/-- `enumerate(batch_result.results)` over the formatting loop. -/
def formatRows : Nat → List GenerationResult → List BatchRow
  | _, [] => []
  | i, r :: rs => formatRow i r :: formatRows (i + 1) rs

/-- The body of the `batch_generate` tool after the batch-size gate
(text_generation.py 410-450): sanitize the prompts when enabled, build the
`BatchRequest` (`max_concurrent` capped by the performance ceiling,
`max_tokens` by `max_response_length`), run the client's batch fan-out and
format the result.  `client_batch` is the backend oracle, taking the
sanitized prompt list and the effective concurrency cap; `.error` models a
raised exception. -/
def batch_body
    (client_batch : List (List Char) → Nat → Except String BatchResult)
    (security : SecurityConfig) (performance_max_concurrent : Nat)
    (prompts : List (List Char)) (max_concurrent : Nat) :
    Except String BatchToolOutput :=
  let prompts :=
    if security.data_sanitization then
      prompts.map (sanitize_prompt security.max_prompt_length)
    else prompts
  (client_batch prompts (min max_concurrent performance_max_concurrent)).map fun br =>
    { rows := formatRows 0 br.results, total_time := br.total_time,
      successful := br.successful, failed := br.failed,
      total_prompts := prompts.length }

/-- `TextGenerationTools.batch_generate` (text_generation.py 397-454): the
batch-size gate `if len(prompts) > 50: raise ValueError(...)` runs first;
only below the limit does the body sanitize, build the request and call the
backend. -/
def tool_batch_generate
    (client_batch : List (List Char) → Nat → Except String BatchResult)
    (security : SecurityConfig) (performance_max_concurrent : Nat)
    (prompts : List (List Char)) (max_concurrent : Nat) :
    Except String BatchToolOutput :=
  if prompts.length > 50 then
    .error "Too many prompts in batch (maximum 50)"
  else
    batch_body client_batch security performance_max_concurrent prompts max_concurrent

end TextTools

/-! ## Protocol router (`protocol/mcp_handler.py`) -/

namespace MCP

/-- A JSON-RPC id: `Union[str, int]` (message_types.py 35, 43). -/
inductive JsonId where
  | str (s : String)
  | num (n : Int)
deriving Repr, DecidableEq

/-- A parsed JSON / Python value, as far as the embedded handlers inspect
one. -/
inductive PyValue where
  | pynull
  | pybool (b : Bool)
  | pyint (n : Int)
  | pystr (s : String)
  | pylist (xs : List PyValue)
  | pydict (entries : List (String × PyValue))

/-- Python `dict.get(key)` on a string-keyed dict. -/
def assocGet : List (String × PyValue) → String → Option PyValue
  | [], _ => none
  | (k, v) :: rest, key => if k == key then some v else assocGet rest key

/-- Python truthiness of `dict.get`'s result, as used by `if not uri:`
(mcp_handler.py 268): missing key (`None`), `None`, `False`, `0`, the empty
string, list and dict are falsy. -/
def pyFalsy : Option PyValue → Bool
  | none => true
  | some .pynull => true
  | some (.pybool b) => !b
  | some (.pyint n) => n == 0
  | some (.pystr s) => s == ""
  | some (.pylist xs) => xs.isEmpty
  | some (.pydict es) => es.isEmpty

/-- Python `value == some_string` for a `dict.get` result: only a string
with the same characters compares equal. -/
def pyEqStr : Option PyValue → String → Bool
  | some (.pystr t), s => t == s
  | _, _ => false

/-- Python `str(value)` for the values above, used only to interpolate error
messages; the rendering of containers is abbreviated (no claim depends on
it). -/
def pyStrOf : Option PyValue → String
  | none => "None"
  | some .pynull => "None"
  | some (.pybool true) => "True"
  | some (.pybool false) => "False"
  | some (.pyint n) => toString n
  | some (.pystr s) => s
  | some (.pylist _) => "[...]"
  | some (.pydict _) => "[dict]"

/-- `MCPError` (message_types.py 25-29). -/
structure MCPError where
  code : Int
  message : String
  data : Option PyValue := none

/-- `MCPResponse` (message_types.py 40-45).  The `id` field is declared
`Union[str, int]` — not `Optional`, no default — so a validated response
always carries a non-null id; see `create_error_response`. -/
structure MCPResponse where
  id : JsonId
  result : Option PyValue := none
  error : Option MCPError := none

/-- `MCPRequest` (message_types.py 32-37): after `MCPRequest(**data)` the
`params` field holds a plain dict (or `None`) — pydantic validates
`Optional[Dict[str, Any]]`, it does not build a `ToolCall` object. -/
structure MCPRequest where
  id : JsonId
  method : String
  params : Option (List (String × PyValue)) := none

/-- `ToolDefinition` (message_types.py 96-100); the input schema is opaque
data for the router. -/
structure ToolDefinition where
  name : String
  description : String
  inputSchema : PyValue

/-- `ResourceDefinition` (message_types.py 136-141). -/
structure ResourceDefinition where
  uri : String
  name : String
  description : Option String := none
  mimeType : Option String := none

/-- A registry entry made by `register_tool` (mcp_handler.py 39-45): the
handler (an async callable, modelled on its keyword arguments) and the
declaration. -/
structure ToolEntry where
  handler : List (String × PyValue) → Except String PyValue
  definition : ToolDefinition

/-- A registry entry made by `register_resource` (mcp_handler.py 47-53). -/
structure ResourceEntry where
  handler : PyValue → Except String PyValue
  definition : ResourceDefinition

/-- The mutable state of one `MCPHandler` (mcp_handler.py 31-37):
insertion-ordered registries, the `initialized` flag and the stored client
capabilities. -/
structure HandlerState where
  tools : List (String × ToolEntry)
  resources : List (String × ResourceEntry)
  initialized : Bool
  client_capabilities : PyValue

/-- Lookup in the tool registry (`tool_name not in self.tools`). -/
def lookupTool : List (String × ToolEntry) → String → Option ToolEntry
  | [], _ => none
  | (k, v) :: rest, key => if k == key then some v else lookupTool rest key

/-- Lookup in the resource registry (`uri not in self.resources`). -/
def lookupResource : List (String × ResourceEntry) → String → Option ResourceEntry
  | [], _ => none
  | (k, v) :: rest, key => if k == key then some v else lookupResource rest key

/-- An error `MCPResponse` with a (non-null) id: result absent, error
present. -/
def errorResponse (id : JsonId) (code : Int) (message : String) : MCPResponse :=
  { id := id, result := none, error := some { code := code, message := message } }

/-- `MCPHandler._create_error_response` (mcp_handler.py 297-306): builds
`MCPResponse(id=request_id, error=error)`.  Its own signature admits
`request_id=None`, but `MCPResponse.id` is `Union[str, int]` with no
`Optional` and no default (message_types.py 43), so pydantic raises a
`ValidationError` for a null id: in that case the call produces an
exception, not a response. -/
def create_error_response (request_id : Option JsonId) (code : Int)
    (message : String) : Except String MCPResponse :=
  match request_id with
  | some i => .ok (errorResponse i code message)
  | none => .error "ValidationError: MCPResponse id received None, expected str or int"

/-- The fixed result of `InitializeResponse` (message_types.py 81-93). -/
def initializeResult : PyValue :=
  .pydict [("protocolVersion", .pystr "2024-11-05"),
           ("capabilities", .pydict [("tools", .pydict [("listChanged", .pybool true)]),
                                     ("resources", .pydict [("listChanged", .pybool true)])]),
           ("serverInfo", .pydict [("name", .pystr "koboldcpp-mcp-server"),
                                   ("version", .pystr "1.0.0")])]

/-- `MCPHandler._handle_initialize` (mcp_handler.py 148-171): default the
params to `\x7b\x7d`, require `protocolVersion == "2024-11-05"` (else -32602 and no
state change), then store the client capabilities, set `initialized` and
answer with the fixed capability advertisement. -/
def handle_initialize (st : HandlerState) (req : MCPRequest) :
    HandlerState × Except String MCPResponse :=
  let params := req.params.getD []
  let protocol_version := assocGet params "protocolVersion"
  if pyEqStr protocol_version "2024-11-05" = false then
    (st, .ok (errorResponse req.id (-32602)
      ("Unsupported protocol version: " ++ pyStrOf protocol_version)))
  else
    let st' := { st with
      client_capabilities := (assocGet params "capabilities").getD (.pydict []),
      initialized := true }
    (st', .ok { id := req.id, result := some initializeResult, error := none })

/-- `MCPHandler._handle_list_tools` (mcp_handler.py 173-188). -/
def handle_list_tools (st : HandlerState) (req : MCPRequest) : Except String MCPResponse :=
  if st.initialized = false then
    .ok (errorResponse req.id (-32002) "Server not initialized")
  else
    .ok { id := req.id,
          result := some (.pydict [("tools", .pylist (st.tools.map fun t =>
            .pydict [("name", .pystr t.2.definition.name),
                     ("description", .pystr t.2.definition.description),
                     ("inputSchema", t.2.definition.inputSchema)]))]),
          error := none }

/-- `MCPHandler._handle_call_tool` (mcp_handler.py 190-241).  After the
initialization gate, line 197 runs `tool_name = request.params.name`; the
request was built as `MCPRequest(**data)` (line 96), so `params` is a plain
dict (`None` when absent), and the attribute access raises an
`AttributeError` *outside* the `try` that starts at line 205.  The registry
lookup (-32601), the handler dispatch and the `isError` wrapping at lines
200-241 are therefore unreachable and have no image in this model; the
exception propagates to `_handle_request`. -/
def handle_call_tool (st : HandlerState) (req : MCPRequest) : Except String MCPResponse :=
  if st.initialized = false then
    .ok (errorResponse req.id (-32002) "Server not initialized")
  else
    match req.params with
    | none => .error "AttributeError: NoneType object has no attribute name"
    | some _ => .error "AttributeError: dict object has no attribute name"

/-- `MCPHandler._handle_list_resources` (mcp_handler.py 243-258). -/
def handle_list_resources (st : HandlerState) (req : MCPRequest) : Except String MCPResponse :=
  if st.initialized = false then
    .ok (errorResponse req.id (-32002) "Server not initialized")
  else
    .ok { id := req.id,
          result := some (.pydict [("resources", .pylist (st.resources.map fun r =>
            .pydict [("uri", .pystr r.2.definition.uri),
                     ("name", .pystr r.2.definition.name),
                     ("description", (r.2.definition.description.map .pystr).getD .pynull),
                     ("mimeType", (r.2.definition.mimeType.map .pystr).getD .pynull)]))]),
          error := none }

/-- `MCPHandler._handle_read_resource` (mcp_handler.py 260-295):
initialization gate, `params.get("uri")` (an `AttributeError` when `params`
is `None`), the Python-truthiness test `if not uri:` (-32602 for a missing
— or empty/falsy — uri), the registry lookup (-32601 for an unregistered
uri, including any non-string truthy value), then the handler call; an
exception from the handler — or a non-dict handler result, rejected by
`ReadResourceResponse`'s `result: Dict[str, Any]` — becomes -32603. -/
def handle_read_resource (st : HandlerState) (req : MCPRequest) : Except String MCPResponse :=
  if st.initialized = false then
    .ok (errorResponse req.id (-32002) "Server not initialized")
  else
    match req.params with
    | none => .error "AttributeError: NoneType object has no attribute get"
    | some params =>
      let uri := assocGet params "uri"
      if pyFalsy uri then
        .ok (errorResponse req.id (-32602) "Missing required parameter: uri")
      else
        match uri with
        | some (.pystr u) =>
          match lookupResource st.resources u with
          | none => .ok (errorResponse req.id (-32601) ("Resource not found: " ++ u))
          | some entry =>
            match entry.handler (.pystr u) with
            | .error e => .ok (errorResponse req.id (-32603) ("Resource read failed: " ++ e))
            | .ok result =>
              match result with
              | .pydict es => .ok { id := req.id, result := some (.pydict es), error := none }
              | _ => .ok (errorResponse req.id (-32603)
                  "Resource read failed: ValidationError for ReadResourceResponse")
        | _ => .ok (errorResponse req.id (-32601) ("Resource not found: " ++ pyStrOf uri))

/-- `MCPHandler._handle_request` (mcp_handler.py 121-146): dispatch on the
method name (-32601 for an unknown one); any exception escaping a handler is
caught and turned into `-32603 Internal error: str(e)` tagged with the
request id (always non-null here, so `_create_error_response` succeeds). -/
def handle_request (st : HandlerState) (req : MCPRequest) : HandlerState × MCPResponse :=
  let step : HandlerState × Except String MCPResponse :=
    match req.method with
    | "initialize" => handle_initialize st req
    | "tools/list" => (st, handle_list_tools st req)
    | "tools/call" => (st, handle_call_tool st req)
    | "resources/list" => (st, handle_list_resources st req)
    | "resources/read" => (st, handle_read_resource st req)
    | m => (st, .ok (errorResponse req.id (-32601) ("Method not found: " ++ m)))
  match step.2 with
  | .ok resp => (step.1, resp)
  | .error e => (step.1, errorResponse req.id (-32603) ("Internal error: " ++ e))

/-- A parsed inbound JSON object, as far as `_process_message` inspects it:
whether an `"id"` member is present (and its value), the method and the
params. -/
structure JsonMessage where
  id : Option JsonId
  method : String
  params : Option (List (String × PyValue)) := none

/-- One inbound WebSocket message: either `json.loads` raises
(`malformed`, carrying `str(e)`), or it yields an object. -/
inductive InMessage where
  | malformed (errText : String)
  | parsed (data : JsonMessage)

/-- `MCPHandler._process_message` (mcp_handler.py 78-105).  A parse failure
short-circuits into `_create_error_response(None, -32700, ...)` — whose
construction itself raises, see `create_error_response`.  A message without
an id is a notification: handled, never answered (unknown notification
methods are only logged, mcp_handler.py 107-119).  A message with an id
becomes an `MCPRequest` and is routed.  The returned list holds the
responses sent over the socket; `.error` is an exception escaping the
method. -/
def process_message (st : HandlerState) (msg : InMessage) :
    Except String (HandlerState × List MCPResponse) :=
  match msg with
  | .malformed errText =>
    match create_error_response none (-32700) ("Parse error: " ++ errText) with
    | .ok resp => .ok (st, [resp])
    | .error e => .error e
  | .parsed data =>
    match data.id with
    | none => .ok (st, [])
    | some i =>
      let req : MCPRequest := { id := i, method := data.method, params := data.params }
      let out := handle_request st req
      .ok (out.1, [out.2])

/-- The read loop of `MCPHandler.handle_connection` (mcp_handler.py 55-76)
over a finite inbound message sequence, returning every response sent.  An
exception escaping `_process_message` is caught at lines 64-69, which call
`_create_error_response(None, -32603, ...)`; that raises the same
`ValidationError` (null id), which escapes the `async for` loop: the
connection handler exits and the remaining messages are never read. -/
def handle_messages (st : HandlerState) : List InMessage → List MCPResponse
  | [] => []
  | m :: rest =>
    match process_message st m with
    | .ok (st', sent) => sent ++ handle_messages st' rest
    | .error _ => []

end MCP

/-! ## Concrete inputs used by counterexamples and witnesses -/

namespace KoboldClient

/-- A backend whose status endpoint answers 503 on every attempt. -/
def oracle503 : Nat → AttemptOutcome := fun _ => .status 503 "Service Unavailable"

/-- A backend that drops the connection on attempts 0 and 1 and then
answers 200. -/
def oracleRecovers : Nat → AttemptOutcome := fun a =>
  if a < 2 then .exn "Connection reset" else .success "result-json"

/-- A backend that answers 504 on every attempt. -/
def oracleDown : Nat → AttemptOutcome := fun _ => .status 504 "Gateway Timeout"

end KoboldClient

namespace TextTools

/-- A backend for which every generation succeeds, with a
tokens-per-second rate determined by the sampling parameters. -/
def sweepOracle : GenerateTextParams → KoboldClient.GenerationResult := fun p =>
  { text := "t", tokens_generated := 1, generation_time := 1,
    tokens_per_second := p.temperature + p.top_p, finish_reason := "stop" }

/-- A backend for which every generation succeeds with a fixed result. -/
def genOracle : GenerateTextParams → Except String KoboldClient.GenerationResult := fun _ =>
  .ok { text := "ok", tokens_generated := 1, generation_time := 1,
        tokens_per_second := 1, finish_reason := "stop" }

/-- A backend whose batch fan-out succeeds with an empty summary. -/
def batchOracle : List (List Char) → Nat → Except String KoboldClient.BatchResult :=
  fun _ _ => .ok { results := [], total_time := 0, successful := 0, failed := 0 }

/-- A list of `n` copies of the one-character prompt `"a"`. -/
def samplePrompts (n : Nat) : List (List Char) := List.replicate n ['a']

end TextTools

namespace MCP

/-- A registered tool declaration (as built by `server.py`; the schema
literal is opaque data for the router and elided here). -/
def sampleToolDefinition : ToolDefinition :=
  { name := "generate_text", description := "Generate text using KoboldCpp",
    inputSchema := .pydict [] }

/-- A registered tool whose handler always raises. -/
def failingToolEntry : ToolEntry :=
  { handler := fun _ => .error "Text generation failed", definition := sampleToolDefinition }

/-- A handler state after `initialize` succeeded, with one registered tool
and no resources. -/
def readyState : HandlerState :=
  { tools := [("generate_text", failingToolEntry)], resources := [],
    initialized := true, client_capabilities := .pydict [] }

/-- A handler state before any `initialize`, with the same registry. -/
def freshState : HandlerState :=
  { tools := [("generate_text", failingToolEntry)], resources := [],
    initialized := false, client_capabilities := .pydict [] }

/-- A `tools/call` request naming a tool that is not in the registry. -/
def unknownToolRequest : MCPRequest :=
  { id := .num 7, method := "tools/call",
    params := some [("name", .pystr "nope"), ("arguments", .pydict [])] }

/-- A `tools/call` request naming the registered tool. -/
def knownToolRequest : MCPRequest :=
  { id := .num 8, method := "tools/call",
    params := some [("name", .pystr "generate_text"),
                    ("arguments", .pydict [("prompt", .pystr "Hello")])] }

/-- A well-formed `initialize` request with the supported protocol version. -/
def initializeMessage : JsonMessage :=
  { id := some (.num 1), method := "initialize",
    params := some [("protocolVersion", .pystr "2024-11-05"),
                    ("capabilities", .pydict []),
                    ("clientInfo", .pydict [("name", .pystr "claude-code"),
                                            ("version", .pystr "1.0.0")])] }

/-- The `initialize` request carried by `initializeMessage`. -/
def initializeRequest : MCPRequest :=
  { id := .num 1, method := "initialize",
    params := some [("protocolVersion", .pystr "2024-11-05"),
                    ("capabilities", .pydict []),
                    ("clientInfo", .pydict [("name", .pystr "claude-code"),
                                            ("version", .pystr "1.0.0")])] }

/-- A `tools/list` request. -/
def listToolsRequest : MCPRequest :=
  { id := .num 2, method := "tools/list", params := none }

end MCP

/-! ## Lemmas about `pyReplace` -/

/-- A single replacement pass with an empty replacement never lengthens the
text. -/
theorem pyReplace_length_le (pat : List Char) (l : List Char) :
    (pyReplace pat [] l).length ≤ l.length := by
  induction l using pyReplace.induct pat [] with
  | case1 => simp [pyReplace]
  | case2 c cs h ih =>
      rw [pyReplace, dif_pos h]
      simp only [List.nil_append]
      calc (pyReplace pat [] (List.drop pat.length (c :: cs))).length
          ≤ (List.drop pat.length (c :: cs)).length := ih
        _ ≤ (c :: cs).length := by simp [List.length_drop]
  | case3 c cs h ih =>
      rw [pyReplace, dif_neg h]
      simp only [List.length_cons]
      omega

/-- If the pattern occurs in the text, the left-to-right pass fires at least
once, so the output is strictly shorter. -/
theorem pyReplace_length_lt_of_infixB (pat : List Char) (l : List Char)
    (hpat : pat ≠ []) (hinf : listInfixB pat l = true) :
    (pyReplace pat [] l).length < l.length := by
  induction l using pyReplace.induct pat [] with
  | case1 => simp [listInfixB, List.isEmpty_iff] at hinf; exact absurd hinf hpat
  | case2 c cs h ih =>
      rw [pyReplace, dif_pos h]
      have hp : 0 < pat.length := List.length_pos.mpr h.1
      have hle := pyReplace_length_le pat (List.drop pat.length (c :: cs))
      simp only [List.nil_append]
      calc (pyReplace pat [] (List.drop pat.length (c :: cs))).length
          ≤ (List.drop pat.length (c :: cs)).length := hle
        _ < (c :: cs).length := by
            simp only [List.length_drop, List.length_cons]; omega
  | case3 c cs h ih =>
      rw [pyReplace, dif_neg h]
      have hpre : listPrefixB pat (c :: cs) = false := by
        by_contra hb
        exact h ⟨hpat, by simpa using hb⟩
      have hinf' : listInfixB pat cs = true := by
        rw [listInfixB, hpre] at hinf
        simpa using hinf
      have := ih hinf'
      simp only [List.length_cons]
      omega

/-- If the pattern does not occur in the text, the pass is the identity. -/
theorem pyReplace_of_not_infixB (pat : List Char) (l : List Char)
    (hinf : listInfixB pat l = false) :
    pyReplace pat [] l = l := by
  induction l using pyReplace.induct pat [] with
  | case1 => simp [pyReplace]
  | case2 c cs h ih =>
      exfalso
      rw [listInfixB, h.2] at hinf
      simp at hinf
  | case3 c cs h ih =>
      rw [pyReplace, dif_neg h]
      rw [listInfixB] at hinf
      simp only [Bool.or_eq_false_iff] at hinf
      rw [ih hinf.2]

/-- The sanitized prompt never exceeds `max_prompt_length`: either the
replaced text is already short enough, or it is truncated to the bound. -/
theorem TextTools.sanitize_prompt_length_le (max_prompt_length : Nat) (prompt : List Char) :
    (TextTools.sanitize_prompt max_prompt_length prompt).length ≤ max_prompt_length := by
  rw [TextTools.sanitize_prompt]
  split
  · simpa using Nat.min_le_left _ _
  · omega

/-! ## C7 — sanitization -/

/-- C7, counterexample to the claim as stated.  The claim says the sanitized
output contains no occurrence of a known delimiter token, and its sources say
sanitization "removes it".  But `str.replace` makes a single pass: removing
the inner `</s>` from `"<</s>/s>"` concatenates the surrounding fragments
into a fresh `</s>`, which the pass never revisits — the sanitized output
*is* the delimiter token. -/
theorem claim_C7_counterexample :
    TextTools.sanitize_prompt 8192 ("<</s>/s>".data) = "</s>".data ∧
    listInfixB ("</s>".data) (TextTools.sanitize_prompt 8192 ("<</s>/s>".data)) = true := by
  have h1 : TextTools.sanitize_prompt 8192 ("<</s>/s>".data) = "</s>".data := by
    simp [TextTools.sanitize_prompt, pyReplace, listPrefixB]
  refine ⟨h1, ?_⟩
  rw [h1]
  decide

/-- C7, amended: sanitization strips the delimiter tokens by one
left-to-right `str.replace` pass each — when a delimiter occurs in the
input at least one replacement fires, so the output is strictly shorter,
but a delimiter reassembled from adjacent fragments may survive — and the
sanitized output is never longer than `max_prompt_length`. -/
theorem claim_C7_sanitize_amended (max_prompt_length : Nat) (prompt : List Char) :
    (TextTools.sanitize_prompt max_prompt_length prompt).length ≤ max_prompt_length ∧
    ((listInfixB ("</s>".data) prompt = true ∨ listInfixB ("<|endoftext|>".data) prompt = true) →
      (TextTools.sanitize_prompt max_prompt_length prompt).length < prompt.length) := by
  have hpass : (TextTools.sanitize_prompt max_prompt_length prompt).length ≤
      (pyReplace ("<|endoftext|>".data) [] (pyReplace ("</s>".data) [] prompt)).length := by
    rw [TextTools.sanitize_prompt]
    split
    · simpa using Nat.min_le_right _ _
    · exact le_rfl
  constructor
  · exact TextTools.sanitize_prompt_length_le max_prompt_length prompt
  · intro hdelim
    have hshrink : (pyReplace ("<|endoftext|>".data) []
        (pyReplace ("</s>".data) [] prompt)).length < prompt.length := by
      by_cases hs : listInfixB ("</s>".data) prompt = true
      · have h1 := pyReplace_length_lt_of_infixB ("</s>".data) prompt (by decide) hs
        have h2 := pyReplace_length_le ("<|endoftext|>".data)
          (pyReplace ("</s>".data) [] prompt)
        omega
      · have hs' : listInfixB ("</s>".data) prompt = false := by
          simpa using hs
        rw [pyReplace_of_not_infixB _ _ hs']
        have he : listInfixB ("<|endoftext|>".data) prompt = true := by
          rcases hdelim with h | h
          · exact absurd h hs
          · exact h
        exact pyReplace_length_lt_of_infixB _ _ (by decide) he
    omega

/-- Closed witness for `claim_C7_sanitize_amended` at a concrete prompt
containing a delimiter token. -/
theorem claim_C7_sanitize_amended_witness :
    (TextTools.sanitize_prompt 8192 ("<</s>/s>".data)).length ≤ 8192 ∧
    (TextTools.sanitize_prompt 8192 ("<</s>/s>".data)).length < ("<</s>/s>".data).length := by
  have h := claim_C7_sanitize_amended 8192 ("<</s>/s>".data)
  exact ⟨h.1, h.2 (Or.inl (by decide))⟩

/-! ## C1 — batch fan-out invariant -/

namespace KoboldClient

/-- The fan-out produces one outcome per prompt. -/
theorem runBatch_length (gen : Nat → List Char → Option GenerationResult)
    (k : Nat) (ps : List (List Char)) :
    (runBatch gen k ps).length = ps.length := by
  induction ps generalizing k with
  | nil => simp [runBatch]
  | cons p ps ih => simp [runBatch, ih]

/-- Outcome `i` of the fan-out is the oracle's answer for prompt `i`. -/
theorem runBatch_get? (gen : Nat → List Char → Option GenerationResult)
    (k : Nat) (ps : List (List Char)) (i : Nat) :
    (runBatch gen k ps).get? i = (ps.get? i).map fun p => gen (k + i) p := by
  induction ps generalizing k i with
  | nil => simp [runBatch]
  | cons p ps ih =>
    cases i with
    | zero => simp [runBatch]
    | succ j =>
      simp only [runBatch, List.get?_cons_succ, ih (k + 1) j]
      have : k + 1 + j = k + (j + 1) := by omega
      rw [this]

/-- The collection loop appends one entry per outcome: the result itself, or
the placeholder for a failure. -/
theorem batchFold_foldl_results (l : List (Option GenerationResult)) :
    ∀ rs : List GenerationResult, ∀ s f : Nat,
    (l.foldl batchFold (rs, s, f)).1 =
      rs ++ l.map (fun r => r.getD failedGenerationResult) := by
  induction l with
  | nil => simp
  | cons r l ih =>
    intro rs s f
    cases r with
    | some res => simp [batchFold, ih, List.append_assoc]
    | none => simp [batchFold, ih, List.append_assoc]

/-- The collection loop counts one success per `GenerationResult` outcome. -/
theorem batchFold_foldl_successful (l : List (Option GenerationResult)) :
    ∀ rs : List GenerationResult, ∀ s f : Nat,
    (l.foldl batchFold (rs, s, f)).2.1 = s + l.countP (fun r => r.isSome) := by
  induction l with
  | nil => simp
  | cons r l ih =>
    intro rs s f
    cases r with
    | some res => simp [batchFold, ih, List.countP_cons]; omega
    | none => simp [batchFold, ih, List.countP_cons]

/-- The collection loop counts one failure per `None` outcome. -/
theorem batchFold_foldl_failed (l : List (Option GenerationResult)) :
    ∀ rs : List GenerationResult, ∀ s f : Nat,
    (l.foldl batchFold (rs, s, f)).2.2 = f + l.countP (fun r => r.isNone) := by
  induction l with
  | nil => simp
  | cons r l ih =>
    intro rs s f
    cases r with
    | some res => simp [batchFold, ih, List.countP_cons]
    | none => simp [batchFold, ih, List.countP_cons]; omega

/-- Each outcome is either a success or a failure. -/
theorem countP_isSome_add_isNone (l : List (Option GenerationResult)) :
    l.countP (fun r => r.isSome) + l.countP (fun r => r.isNone) = l.length := by
  induction l with
  | nil => simp
  | cons r l ih =>
    cases r <;> simp [List.countP_cons] <;> omega

end KoboldClient

/-- C1: for every prompt list and every pattern of per-prompt success or
failure, `batch_generate` returns exactly one result per prompt, in input
order — entry `i` is the generation result for prompt `i`, or the
placeholder (`text = ""`, `tokens_generated = 0`, `finish_reason = "error"`)
when that prompt's generation failed — and `successful + failed` equals the
number of prompts. -/
theorem claim_C1_batch_invariant
    (gen : Nat → List Char → Option KoboldClient.GenerationResult)
    (total_time : ℚ) (prompts : List (List Char)) :
    ((KoboldClient.batch_generate gen total_time prompts).results.length = prompts.length) ∧
    ((KoboldClient.batch_generate gen total_time prompts).successful +
      (KoboldClient.batch_generate gen total_time prompts).failed = prompts.length) ∧
    (∀ i : Nat, (KoboldClient.batch_generate gen total_time prompts).results.get? i =
      (prompts.get? i).map fun p =>
        (gen i p).getD { text := "", tokens_generated := 0, generation_time := 0,
                         tokens_per_second := 0, finish_reason := "error" }) := by
  simp only [KoboldClient.batch_generate]
  rw [KoboldClient.batchFold_foldl_results, KoboldClient.batchFold_foldl_successful,
    KoboldClient.batchFold_foldl_failed]
  simp only [List.nil_append, Nat.zero_add]
  refine ⟨?_, ?_, ?_⟩
  · rw [List.length_map, KoboldClient.runBatch_length]
  · rw [KoboldClient.countP_isSome_add_isNone, KoboldClient.runBatch_length]
  · intro i
    rw [List.get?_map, KoboldClient.runBatch_get? gen 0 prompts i]
    simp only [Nat.zero_add, Option.map_map]
    rfl

/-! ## C2 — retry loop -/

namespace KoboldClient

/-- Unfolding of the retry loop at an attempt that returns 200. -/
theorem makeRequestFrom_eq_success (oracle : Nat → AttemptOutcome) (m a : Nat)
    (r : String) (h : oracle a = .success r) :
    makeRequestFrom oracle m a = .ok r := by
  rw [makeRequestFrom, h]

/-- Unfolding of the retry loop at an attempt that sees a non-200 status. -/
theorem makeRequestFrom_eq_status (oracle : Nat → AttemptOutcome) (m a c : Nat)
    (body : String) (h : oracle a = .status c body) :
    makeRequestFrom oracle m a =
      if retryableStatus c = true ∧ a < m then makeRequestFrom oracle m (a + 1)
      else if a < m then makeRequestFrom oracle m (a + 1)
      else .error (httpErrorText c body) := by
  rw [makeRequestFrom, h]
  rfl

/-- Unfolding of the retry loop at an attempt whose request raises. -/
theorem makeRequestFrom_eq_exn (oracle : Nat → AttemptOutcome) (m a : Nat)
    (msg : String) (h : oracle a = .exn msg) :
    makeRequestFrom oracle m a =
      if a < m then makeRequestFrom oracle m (a + 1)
      else .error msg := by
  rw [makeRequestFrom, h]
  rfl

/-- If every attempt strictly before `m` fails retryably and attempt `m`
returns 200, the loop started at any `a ≤ m` returns the 200 body. -/
theorem makeRequestFrom_success (oracle : Nat → AttemptOutcome) (m : Nat) (r : String)
    (hfail : ∀ k, k < m → RetryableFailure (oracle k))
    (hsucc : oracle m = .success r) :
    ∀ n a, a ≤ m → m - a = n → makeRequestFrom oracle m a = .ok r := by
  intro n
  induction n with
  | zero =>
    intro a ha hma
    have ham : a = m := by omega
    subst ham
    exact makeRequestFrom_eq_success oracle a a r hsucc
  | succ n ih =>
    intro a ha hma
    have ham : a < m := by omega
    have hf := hfail a ham
    cases ho : oracle a with
    | success s => rw [ho] at hf; exact absurd hf id
    | status c body =>
      rw [ho] at hf
      rw [makeRequestFrom_eq_status oracle m a c body ho, if_pos ⟨hf, ham⟩]
      exact ih (a + 1) (by omega) (by omega)
    | exn msg =>
      rw [makeRequestFrom_eq_exn oracle m a msg ho, if_pos ham]
      exact ih (a + 1) (by omega) (by omega)

/-- If every attempt up to and including `m` fails retryably, the loop
started at any `a ≤ m` propagates the last attempt's error. -/
theorem makeRequestFrom_exhausted (oracle : Nat → AttemptOutcome) (m : Nat)
    (hfail : ∀ k, k ≤ m → RetryableFailure (oracle k)) :
    ∀ n a, a ≤ m → m - a = n →
      makeRequestFrom oracle m a = .error (lastErrorText (oracle m)) := by
  intro n
  induction n with
  | zero =>
    intro a ha hma
    have ham : a = m := by omega
    subst ham
    have hf := hfail a le_rfl
    cases ho : oracle a with
    | success s => rw [ho] at hf; exact absurd hf id
    | status c body =>
      rw [makeRequestFrom_eq_status oracle a a c body ho,
        if_neg (by omega : ¬ (retryableStatus c = true ∧ a < a)),
        if_neg (by omega : ¬ a < a)]
      rfl
    | exn msg =>
      rw [makeRequestFrom_eq_exn oracle a a msg ho, if_neg (by omega : ¬ a < a)]
      rfl
  | succ n ih =>
    intro a ha hma
    have ham : a < m := by omega
    have hf := hfail a (by omega)
    cases ho : oracle a with
    | success s => rw [ho] at hf; exact absurd hf id
    | status c body =>
      rw [ho] at hf
      rw [makeRequestFrom_eq_status oracle m a c body ho, if_pos ⟨hf, ham⟩]
      exact ih (a + 1) (by omega) (by omega)
    | exn msg =>
      rw [makeRequestFrom_eq_exn oracle m a msg ho, if_pos ham]
      exact ih (a + 1) (by omega) (by omega)

end KoboldClient

/-- C2, counterexample to the claim as stated.  With `max_retries = 0` and a
backend answering 503 on every attempt, `_make_request` exhausts its single
attempt and raises — but the raised error is the last attempt's
`ClientError("HTTP 503: Service Unavailable")`, re-raised by the `except`
clause; it does not name the attempt count (the code's own
`f"Failed after ... attempts"` message — here it would read
`"Failed after 1 attempts"` — sits on an unreachable line).  The substring
`"1 attempts"` does not occur in the propagated message. -/
theorem claim_C2_counterexample :
    KoboldClient.make_request KoboldClient.oracle503 0 =
      .error "HTTP 503: Service Unavailable" ∧
    listInfixB ("1 attempts".data) ("HTTP 503: Service Unavailable".data) = false := by
  constructor
  · rw [KoboldClient.make_request,
      KoboldClient.makeRequestFrom_eq_status KoboldClient.oracle503 0 0 503
        "Service Unavailable" rfl,
      if_neg (by omega : ¬ (KoboldClient.retryableStatus 503 = true ∧ 0 < 0)),
      if_neg (by omega : ¬ (0:Nat) < 0)]
    rfl
  · decide

/-- C2, amended: a backend call that fails with a retryable condition (HTTP
502/503/504 or a connection/timeout failure) on exactly the first
`max_retries` attempts and then succeeds returns the successful result; one
that fails retryably on all `max_retries + 1` attempts raises a terminal
failure carrying the last attempt's error — the HTTP status line with the
response body, or the connection failure's own message — rather than a
message naming the attempt count. -/
theorem claim_C2_retry_amended (oracle : Nat → KoboldClient.AttemptOutcome)
    (max_retries : Nat) (r : String) :
    ((∀ k, k < max_retries → KoboldClient.RetryableFailure (oracle k)) →
      oracle max_retries = .success r →
      KoboldClient.make_request oracle max_retries = .ok r) ∧
    ((∀ k, k ≤ max_retries → KoboldClient.RetryableFailure (oracle k)) →
      KoboldClient.make_request oracle max_retries =
        .error (KoboldClient.lastErrorText (oracle max_retries))) := by
  constructor
  · intro hfail hsucc
    exact KoboldClient.makeRequestFrom_success oracle max_retries r hfail hsucc
      max_retries 0 (Nat.zero_le _) (by omega)
  · intro hfail
    exact KoboldClient.makeRequestFrom_exhausted oracle max_retries hfail
      max_retries 0 (Nat.zero_le _) (by omega)

/-- Closed witness for `claim_C2_retry_amended`: with `max_retries = 2` a
backend that fails twice then recovers yields the success; with
`max_retries = 1` a backend that answers 504 throughout yields the
status-line error. -/
theorem claim_C2_retry_amended_witness :
    KoboldClient.make_request KoboldClient.oracleRecovers 2 = .ok "result-json" ∧
    KoboldClient.make_request KoboldClient.oracleDown 1 =
      .error "HTTP 504: Gateway Timeout" := by
  constructor
  · exact (claim_C2_retry_amended KoboldClient.oracleRecovers 2 "result-json").1
      (by decide) rfl
  · exact (claim_C2_retry_amended KoboldClient.oracleDown 1 "").2 (by decide)

/-! ## C9 — sanitization makes the length rejection unreachable -/

/-- C9: when `data_sanitization` is enabled, the
`"Prompt exceeds maximum length"` branch of the `generate_text` tool is
unreachable — sanitization hard-truncates the prompt to
`max_prompt_length` before the length check, so for every input the tool
proceeds into the generation body with the (possibly silently truncated)
sanitized prompt. -/
theorem claim_C9_sanitized_length_guard
    (client_gen : TextTools.GenerateTextParams → Except String KoboldClient.GenerationResult)
    (security : TextTools.SecurityConfig) (prompt : List Char)
    (args : TextTools.GenerateArgs)
    (h : security.data_sanitization = true) :
    TextTools.generate_text client_gen security prompt args =
      TextTools.generate_body client_gen security
        (TextTools.sanitize_prompt security.max_prompt_length prompt) args := by
  rw [TextTools.generate_text]
  simp only [h, if_true]
  rw [if_neg]
  have := TextTools.sanitize_prompt_length_le security.max_prompt_length prompt
  omega

/-- Closed witness for `claim_C9_sanitized_length_guard` at the default
security settings and a concrete prompt. -/
theorem claim_C9_sanitized_length_guard_witness :
    TextTools.generate_text TextTools.genOracle TextTools.defaultSecurity ("Hello".data) {} =
      TextTools.generate_body TextTools.genOracle TextTools.defaultSecurity
        (TextTools.sanitize_prompt TextTools.defaultSecurity.max_prompt_length ("Hello".data)) {} :=
  claim_C9_sanitized_length_guard TextTools.genOracle TextTools.defaultSecurity
    ("Hello".data) {} rfl

/-! ## C10 — batch size gate -/

/-- C10: the `batch_generate` tool rejects every batch of more than 50
prompts with `"Too many prompts in batch"` — before any sanitization,
request construction or backend call: the error is the same for every
backend oracle and security configuration, which never get consulted — and
for at most 50 prompts the gate raises nothing: the tool is exactly its
post-gate body. -/
theorem claim_C10_batch_limit
    (client_batch : List (List Char) → Nat → Except String KoboldClient.BatchResult)
    (security : TextTools.SecurityConfig) (performance_max_concurrent : Nat)
    (prompts : List (List Char)) (max_concurrent : Nat) :
    (prompts.length > 50 →
      TextTools.tool_batch_generate client_batch security performance_max_concurrent
          prompts max_concurrent =
        .error "Too many prompts in batch (maximum 50)") ∧
    (prompts.length ≤ 50 →
      TextTools.tool_batch_generate client_batch security performance_max_concurrent
          prompts max_concurrent =
        TextTools.batch_body client_batch security performance_max_concurrent
          prompts max_concurrent) := by
  constructor
  · intro h
    rw [TextTools.tool_batch_generate, if_pos h]
  · intro h
    rw [TextTools.tool_batch_generate, if_neg (by omega)]

/-- Closed witness for `claim_C10_batch_limit`: 51 prompts are rejected by
the gate, 3 prompts flow into the body. -/
theorem claim_C10_batch_limit_witness :
    TextTools.tool_batch_generate TextTools.batchOracle TextTools.defaultSecurity 5
        (TextTools.samplePrompts 51) 3 =
      .error "Too many prompts in batch (maximum 50)" ∧
    TextTools.tool_batch_generate TextTools.batchOracle TextTools.defaultSecurity 5
        (TextTools.samplePrompts 3) 3 =
      TextTools.batch_body TextTools.batchOracle TextTools.defaultSecurity 5
        (TextTools.samplePrompts 3) 3 :=
  ⟨(claim_C10_batch_limit TextTools.batchOracle TextTools.defaultSecurity 5
      (TextTools.samplePrompts 51) 3).1 (by simp [TextTools.samplePrompts]),
   (claim_C10_batch_limit TextTools.batchOracle TextTools.defaultSecurity 5
      (TextTools.samplePrompts 3) 3).2 (by simp [TextTools.samplePrompts])⟩

/-! ## C8 — parameter sweep -/

namespace TextTools

/-- Decomposition invariant of CPython `max`'s scan: the running fold over
`x :: xs` lands on an element `b` of the list such that everything strictly
before `b` has a strictly smaller key (a tie never displaces the incumbent)
and everything after has a key at most `key b`. -/
theorem pyMaxStep_foldl_decomp {α : Type} (key : α → ℚ) (xs : List α) :
    ∀ x : α, ∃ l₁ l₂ : List α,
      x :: xs = l₁ ++ (xs.foldl (pyMaxStep key) x) :: l₂ ∧
      (∀ y ∈ l₁, key y < key (xs.foldl (pyMaxStep key) x)) ∧
      (∀ y ∈ l₂, key y ≤ key (xs.foldl (pyMaxStep key) x)) := by
  induction xs with
  | nil =>
    intro x
    exact ⟨[], [], by simp, by simp, by simp⟩
  | cons y ys ih =>
    intro x
    rw [List.foldl_cons]
    by_cases hxy : key y > key x
    · rw [show pyMaxStep key x y = y from if_pos hxy]
      obtain ⟨l₁, l₂, hdec, hlt, hle⟩ := ih y
      have hyb : key y ≤ key (ys.foldl (pyMaxStep key) y) := by
        cases l₁ with
        | nil =>
          simp only [List.nil_append, List.cons.injEq] at hdec
          exact le_of_eq (congrArg key hdec.1)
        | cons a l₁' =>
          simp only [List.cons_append, List.cons.injEq] at hdec
          have h := hlt a (by simp)
          rw [← hdec.1] at h
          exact le_of_lt h
      refine ⟨x :: l₁, l₂, ?_, ?_, hle⟩
      · rw [List.cons_append, ← hdec]
      · intro z hz
        rcases List.mem_cons.mp hz with hz | hz
        · subst hz; exact lt_of_lt_of_le hxy hyb
        · exact hlt z hz
    · rw [show pyMaxStep key x y = x from if_neg hxy]
      obtain ⟨l₁, l₂, hdec, hlt, hle⟩ := ih x
      cases l₁ with
      | nil =>
        simp only [List.nil_append, List.cons.injEq] at hdec
        refine ⟨[], y :: ys, ?_, by simp, ?_⟩
        · rw [List.nil_append, ← hdec.1]
        · intro z hz
          rcases List.mem_cons.mp hz with hz | hz
          · subst hz
            calc key z ≤ key x := not_lt.mp hxy
              _ ≤ _ := le_of_eq (congrArg key hdec.1)
          · exact hle z (hdec.2 ▸ hz)
      | cons a l₁' =>
        simp only [List.cons_append, List.cons.injEq] at hdec
        refine ⟨x :: y :: l₁', l₂, ?_, ?_, hle⟩
        · rw [List.cons_append, List.cons_append]
          exact congrArg (fun l => x :: y :: l) hdec.2
        · intro z hz
          have hxb : key x < key (ys.foldl (pyMaxStep key) x) := by
            have h := hlt a (by simp)
            rw [← hdec.1] at h
            exact h
          rcases List.mem_cons.mp hz with hz | hz
          · subst hz; exact hxb
          · rcases List.mem_cons.mp hz with hz | hz
            · subst hz; exact lt_of_le_of_lt (not_lt.mp hxy) hxb
            · exact hlt z (by simp [hz])

/-- If every element of a prefix fails the predicate, `find?` skips the
prefix. -/
theorem find?_append_of_false {α : Type} (p : α → Bool) (l₁ : List α)
    (h : ∀ z ∈ l₁, p z = false) (rest : List α) :
    (l₁ ++ rest).find? p = rest.find? p := by
  induction l₁ with
  | nil => simp
  | cons a l ih =>
    have ha := h a (by simp)
    simp only [List.cons_append, List.find?]
    rw [ha]
    exact ih (fun z hz => h z (by simp [hz]))

/-- CPython `max(results, key=...)` returns exactly the first element whose
key is maximal: the greedy scan agrees with the spec's description of the
recommended configuration. -/
theorem pyMaxBy_eq_specFirstBest (l : List SweepEntry) (b : SweepEntry)
    (h : pyMaxBy (fun x => x.tokens_per_second) l = some b) :
    specFirstBest l = some b := by
  cases l with
  | nil => simp [pyMaxBy] at h
  | cons x xs =>
    simp only [pyMaxBy, Option.some.injEq] at h
    obtain ⟨l₁, l₂, hdec, hlt, hle⟩ :=
      pyMaxStep_foldl_decomp (fun e => e.tokens_per_second) xs x
    rw [h] at hdec hlt hle
    rw [specFirstBest, hdec]
    have hmax : ∀ y ∈ l₁ ++ b :: l₂, y.tokens_per_second ≤ b.tokens_per_second := by
      intro y hy
      rcases List.mem_append.mp hy with hy | hy
      · exact le_of_lt (hlt y hy)
      · rcases List.mem_cons.mp hy with hy | hy
        · subst hy; exact le_rfl
        · exact hle y hy
    rw [find?_append_of_false _ l₁ ?_ _]
    · simp only [List.find?]
      rw [show (decide (∀ y ∈ l₁ ++ b :: l₂,
          y.tokens_per_second ≤ b.tokens_per_second)) = true from decide_eq_true hmax]
    · intro z hz
      simp only [decide_eq_false_iff_not]
      intro hall
      have hb : b ∈ l₁ ++ b :: l₂ := List.mem_append.mpr (Or.inr (by simp))
      exact absurd (hall b hb) (not_le.mpr (hlt z hz))

/-- The ordered cross product of the spec-side sweep is exactly the nested
loop the code runs. -/
theorem specSweepResults_eq_flatMap
    (client_gen : GenerateTextParams → KoboldClient.GenerationResult)
    (prompt : List Char) (max_tokens : Nat) (tr pr : List ℚ) :
    specSweepResults client_gen prompt max_tokens tr pr =
      tr.flatMap fun temp =>
        pr.map fun tp => sweepEntry client_gen prompt max_tokens temp tp := by
  rw [specSweepResults]
  show (List.product tr pr).map _ = _
  rw [List.product]
  induction tr with
  | nil => simp
  | cons t ts ih => simp [ih, List.map_map, Function.comp]

end TextTools

/-- C8: for non-empty temperature and top-p lists, `test_prompt` evaluates
exactly the ordered cross product of the two lists (temperature as the outer
loop, top-p as the inner loop) against the same prompt and `max_tokens`, and
recommends as `best_configuration` the combination with the highest
tokens-per-second, ties broken in favour of the combination encountered
first in that iteration order (`specFirstBest`: the first entry whose
tokens-per-second is greater or equal to every entry's). -/
theorem claim_C8_parameter_sweep
    (client_gen : TextTools.GenerateTextParams → KoboldClient.GenerationResult)
    (prompt : List Char) (tr pr : List ℚ) (max_tokens : Nat)
    (hT : tr ≠ []) (hP : pr ≠ []) :
    TextTools.test_prompt client_gen prompt (some tr) (some pr) max_tokens =
      (TextTools.specFirstBest
          (TextTools.specSweepResults client_gen prompt max_tokens tr pr)).elim
        (.error "max arg is an empty sequence")
        (fun best => .ok
          { test_results := TextTools.specSweepResults client_gen prompt max_tokens tr pr,
            best_configuration :=
              { temperature := best.temperature, top_p := best.top_p,
                performance := best.tokens_per_second },
            total_tests := tr.length * pr.length }) := by
  have hO1 : TextTools.pyOrList (some tr) [3/10, 7/10, 1] = tr := by
    rw [TextTools.pyOrList]; exact if_neg hT
  have hO2 : TextTools.pyOrList (some pr) [8/10, 9/10, 95/100] = pr := by
    rw [TextTools.pyOrList]; exact if_neg hP
  have hspec := TextTools.specSweepResults_eq_flatMap client_gen prompt max_tokens tr pr
  have hlen : (TextTools.specSweepResults client_gen prompt max_tokens tr pr).length =
      tr.length * pr.length := by
    rw [TextTools.specSweepResults, List.length_map, List.length_product]
  rw [TextTools.test_prompt, hO1, hO2, ← hspec]
  have hne : TextTools.specSweepResults client_gen prompt max_tokens tr pr ≠ [] := by
    intro hnil
    rw [hnil] at hlen
    have h1 : 0 < tr.length := List.length_pos.mpr hT
    have h2 : 0 < pr.length := List.length_pos.mpr hP
    simp only [List.length_nil] at hlen
    nlinarith
  cases hR : TextTools.specSweepResults client_gen prompt max_tokens tr pr with
  | nil => exact absurd hR hne
  | cons x xs =>
    rw [TextTools.pyMaxBy]
    have hb := TextTools.pyMaxBy_eq_specFirstBest (x :: xs)
      (xs.foldl (TextTools.pyMaxStep fun e => e.tokens_per_second) x)
      (by rw [TextTools.pyMaxBy])
    rw [← hR] at hb ⊢
    rw [hb]
    rw [hR] at hlen
    simp only [Option.elim]
    rw [← hlen, hR]

/-- Closed witness for `claim_C8_parameter_sweep`: two temperatures, one
top-p; the backend rate is temperature + top-p, so the second combination
wins. -/
theorem claim_C8_parameter_sweep_witness :
    TextTools.test_prompt TextTools.sweepOracle ("p".data) (some [1, 2]) (some [3]) 5 =
      .ok { test_results :=
              [{ temperature := 1, top_p := 3, generated_text := "t",
                 tokens_generated := 1, generation_time := 1, tokens_per_second := 4 },
               { temperature := 2, top_p := 3, generated_text := "t",
                 tokens_generated := 1, generation_time := 1, tokens_per_second := 5 }],
            best_configuration := { temperature := 2, top_p := 3, performance := 5 },
            total_tests := 2 } := by
  have h := claim_C8_parameter_sweep TextTools.sweepOracle ("p".data) [1, 2] [3] 5
    (by decide) (by decide)
  have h1 : TextTools.specSweepResults TextTools.sweepOracle ("p".data) 5 [1, 2] [3] =
      [{ temperature := 1, top_p := 3, generated_text := "t",
         tokens_generated := 1, generation_time := 1, tokens_per_second := 4 },
       { temperature := 2, top_p := 3, generated_text := "t",
         tokens_generated := 1, generation_time := 1, tokens_per_second := 5 }] := by
    norm_num [TextTools.specSweepResults, TextTools.sweepEntry, TextTools.sweepOracle,
      SProd.sprod, List.product]
  have h2 : TextTools.specFirstBest
      [{ temperature := 1, top_p := 3, generated_text := "t",
         tokens_generated := 1, generation_time := 1, tokens_per_second := 4 },
       { temperature := 2, top_p := 3, generated_text := "t",
         tokens_generated := 1, generation_time := 1, tokens_per_second := 5 }] =
      some { temperature := 2, top_p := 3, generated_text := "t",
             tokens_generated := 1, generation_time := 1, tokens_per_second := 5 } := by
    norm_num [TextTools.specFirstBest, List.find?]
  rw [h, h1, h2]
  rfl

/-! ## C6 — initialization gate -/

/-- C6: while a session is not yet initialized, each of `tools/list`,
`tools/call`, `resources/list` and `resources/read` is answered with error
-32002 before any other handling (the state is untouched and no registry or
params inspection happens); and an `initialize` request carrying the single
supported `protocolVersion` flips the session to initialized and answers
with a result, after which a `tools/list` request is answered with a result
and no error. -/
theorem claim_C6_initialization_gate (st : MCP.HandlerState)
    (req reqInit reqList : MCP.MCPRequest) :
    (st.initialized = false →
      (req.method = "tools/list" ∨ req.method = "tools/call" ∨
        req.method = "resources/list" ∨ req.method = "resources/read") →
      MCP.handle_request st req =
        (st, MCP.errorResponse req.id (-32002) "Server not initialized")) ∧
    (∀ ps, reqInit.method = "initialize" → reqInit.params = some ps →
      MCP.assocGet ps "protocolVersion" = some (.pystr "2024-11-05") →
      ((MCP.handle_request st reqInit).1.initialized = true ∧
       (MCP.handle_request st reqInit).2.error = none ∧
       (MCP.handle_request st reqInit).2.result.isSome = true ∧
       (reqList.method = "tools/list" →
         (MCP.handle_request (MCP.handle_request st reqInit).1 reqList).2.error = none ∧
         (MCP.handle_request (MCP.handle_request st reqInit).1 reqList).2.result.isSome = true))) := by
  constructor
  · intro h hm
    rcases hm with hm | hm | hm | hm <;>
      simp [MCP.handle_request, hm, MCP.handle_list_tools, MCP.handle_call_tool,
        MCP.handle_list_resources, MCP.handle_read_resource, h]
  · intro ps h1 h2 h3
    have hreq : MCP.handle_request st reqInit =
        ({ st with client_capabilities := (MCP.assocGet ps "capabilities").getD (.pydict []),
                   initialized := true },
         { id := reqInit.id, result := some MCP.initializeResult, error := none }) := by
      simp [MCP.handle_request, h1, MCP.handle_initialize, h2, h3, MCP.pyEqStr]
    rw [hreq]
    refine ⟨rfl, rfl, rfl, ?_⟩
    intro hL
    constructor <;> simp [MCP.handle_request, hL, MCP.handle_list_tools]

/-- Closed witness for `claim_C6_initialization_gate`: on a fresh session a
`tools/list` request is refused with -32002; after a valid `initialize`, the
same request succeeds. -/
theorem claim_C6_initialization_gate_witness :
    MCP.handle_request MCP.freshState MCP.listToolsRequest =
      (MCP.freshState, MCP.errorResponse (.num 2) (-32002) "Server not initialized") ∧
    (MCP.handle_request MCP.freshState MCP.initializeRequest).1.initialized = true ∧
    (MCP.handle_request (MCP.handle_request MCP.freshState MCP.initializeRequest).1
        MCP.listToolsRequest).2.error = none ∧
    (MCP.handle_request (MCP.handle_request MCP.freshState MCP.initializeRequest).1
        MCP.listToolsRequest).2.result.isSome = true := by
  have h := claim_C6_initialization_gate MCP.freshState MCP.listToolsRequest
    MCP.initializeRequest MCP.listToolsRequest
  have h2 := h.2 [("protocolVersion", .pystr "2024-11-05"),
                  ("capabilities", .pydict []),
                  ("clientInfo", .pydict [("name", .pystr "claude-code"),
                                          ("version", .pystr "1.0.0")])] rfl rfl rfl
  exact ⟨h.1 rfl (Or.inl rfl), h2.1, (h2.2.2.2 rfl).1, (h2.2.2.2 rfl).2⟩

/-! ## C3, C4 — the `tools/call` AttributeError -/

/-- C3, code bug.  The claim (and mcp_handler.py's own lines 200-203) expect
an unknown tool name to be answered with -32601 — but line 197 reads
`request.params.name` on a plain dict first, so the `AttributeError`
propagates to `_handle_request` and every `tools/call` on an initialized
session is answered with -32603 `Internal error` instead, its result absent.
(The `resources/read` arms of the claim do hold; the `tools/call` arm is the
divergence witnessed here.) -/
theorem claim_C3_unknown_tool_code_bug :
    MCP.handle_request MCP.readyState MCP.unknownToolRequest =
      (MCP.readyState,
       MCP.errorResponse (.num 7) (-32603)
         "Internal error: AttributeError: dict object has no attribute name") := by
  rfl

/-- C4, code bug.  The claim (and the wrapping code at mcp_handler.py
231-241) expect a registered tool whose handler raises to be answered with a
successful response carrying `isError: true` — but the handler is never
invoked: `request.params.name` raises an `AttributeError` before the
dispatch, and the router answers with a protocol-level -32603 error and no
result.  Evaluated here on an initialized session whose registry holds
`generate_text` with an always-raising handler. -/
theorem claim_C4_tool_error_wrapping_code_bug :
    MCP.handle_request MCP.readyState MCP.knownToolRequest =
      (MCP.readyState,
       MCP.errorResponse (.num 8) (-32603)
         "Internal error: AttributeError: dict object has no attribute name") ∧
    (MCP.handle_request MCP.readyState MCP.knownToolRequest).2.result = none := by
  exact ⟨rfl, rfl⟩

/-! ## C5 — the null-id parse-error response -/

/-- C5, code bug.  On an unparseable message, `_process_message` tries to
send `-32700` with a null id via `_create_error_response(None, ...)` — but
`MCPResponse.id` is `Union[str, int]` with no `Optional`, so the
construction raises a `ValidationError` instead of producing the response;
the per-message `except` in `handle_connection` then calls
`_create_error_response(None, -32603, ...)`, which raises again, and the
read loop exits: nothing is sent and the connection is terminated — here, a
malformed message followed by a valid `initialize` yields no responses at
all, the second message never being read. -/
theorem claim_C5_parse_error_code_bug :
    MCP.process_message MCP.freshState
        (.malformed "Expecting value: line 1 column 1 (char 0)") =
      .error "ValidationError: MCPResponse id received None, expected str or int" ∧
    MCP.handle_messages MCP.freshState
        [.malformed "Expecting value: line 1 column 1 (char 0)",
         .parsed MCP.initializeMessage] = [] := by
  exact ⟨rfl, rfl⟩
